import Mathlib

/-!
Shallow embedding of `src/main.rs` of bjorn3/zulip-messages-rs: a Zulip
long-poll message watcher.  Pure data and control flow are translated
directly; network I/O is made explicit by passing each HTTP response as an
input, and the requests the code would issue are returned as data.  A Rust
panic (`expect`) is modelled as an explicit `panicked` outcome.  The
chrono local-time rendering of a timestamp is environment dependent and is
passed as an abstract rendering function `lt : Int → String`.
-/

namespace Zulip

/-- Mirrors `struct ZulipSite { name, user, token }` (main.rs lines 10-15). -/
structure ZulipSite where
  name : String
  user : String
  token : String
deriving DecidableEq, Repr

/-- Mirrors `ZulipSite::api_url` (main.rs lines 18-20):
`format!("https://\x7b\x7d.zulipchat.com/api/v1/\x7b\x7d", self.name, api)`. -/
def ZulipSite.api_url (s : ZulipSite) (api : String) : String :=
  "https://" ++ s.name ++ ".zulipchat.com/api/v1/" ++ api

/-- A request the client issues: `ZulipSite::get` or `ZulipSite::post`
with the given full URL (main.rs lines 22-32). -/
inductive Request where
  | get (url : String)
  | post (url : String)
deriving DecidableEq, Repr

/-- Model of `serde_json::Value` restricted to what the code inspects:
`as_str` is the only accessor used (main.rs line 279). -/
inductive JValue where
  | str (s : String)
  | num (n : Int)
  | other
deriving DecidableEq, Repr

/-- `serde_json::Value::as_str`: `Some` exactly on JSON strings. -/
def JValue.as_str : JValue → Option String
  | .str s => some s
  | _ => none

/-- Model of the `HashMap<String, serde_json::Value>` error payload
(main.rs line 41) as an association list. -/
abbrev ErrPayload : Type := List (String × JValue)

/-- `HashMap::get` on the error payload: first binding of the key. -/
def ErrPayload.get (p : ErrPayload) (k : String) : Option JValue :=
  (p.find? (fun kv => kv.1 = k)).map (fun kv => kv.2)

/-- Mirrors `enum ApiResult<T> { Success(T), Error(HashMap...) }`
(main.rs lines 35-42). -/
inductive ApiResult (T : Type) where
  | Success (val : T)
  | Error (err : ErrPayload)

/-- Error kinds a call can fail with: a reqwest transport failure
(`send().await?`), a failure to decode the response body
(`.json().await?`), or a structured API error surfaced by
`ApiResult::into_result` (main.rs lines 44-51). -/
inductive ZError where
  | transport
  | decode
  | api (payload : ErrPayload)
deriving DecidableEq, Repr

/-- Mirrors `ApiResult::into_result` (main.rs lines 44-51): `Success` maps
to `Ok`, `Error` maps to a failure carrying the payload. -/
def ApiResult.into_result {T : Type} : ApiResult T → Except ZError T
  | .Success val => .ok val
  | .Error err => .error (.api err)

/-- The observable outcome of one HTTP exchange, as seen after
`send().await?.json::<ApiResult<R>>().await?` up to body decoding:
either the transport fails, or an `ApiResult` body with raw content `R`
arrives. -/
inductive HttpResp (R : Type) where
  | transportFail
  | response (r : ApiResult R)

/-- Mirrors `struct EventQueue { site, queue_id, last_event_id }`
(main.rs lines 112-117); `EventQueueId` is a transparent string wrapper. -/
structure EventQueue where
  site : ZulipSite
  queue_id : String
  last_event_id : Int
deriving DecidableEq, Repr

/-- Mirrors `struct RegisterEventQueue { last_event_id, queue_id }`
(main.rs lines 119-123). -/
structure RegisterEventQueue where
  last_event_id : Int
  queue_id : String
deriving DecidableEq, Repr

/-- Mirrors `enum MessageFlag { Read, Mentioned, HasAlertWord }`
(main.rs lines 183-189). -/
inductive MessageFlag where
  | Read
  | Mentioned
  | HasAlertWord
deriving DecidableEq, Repr

/-- serde deserialization of one flag string under
`rename_all = "snake_case"` with no catch-all variant: any string other
than the three renamed variant names is an unknown-variant error
(main.rs lines 183-189). -/
def MessageFlag.fromStr : String → Option MessageFlag
  | "read" => some .Read
  | "mentioned" => some .Mentioned
  | "has_alert_word" => some .HasAlertWord
  | _ => none

/-- serde deserialization of `Vec<MessageFlag>`: every element must
decode, otherwise the whole vector fails. -/
def decodeFlags (l : List String) : Option (List MessageFlag) :=
  l.mapM MessageFlag.fromStr

/-- Mirrors `struct User { full_name }` (main.rs lines 218-221). -/
structure User where
  full_name : String
deriving DecidableEq, Repr

/-- Mirrors `impl fmt::Display for User` (main.rs lines 223-227):
`write!(f, "@\x7b\x7d", self.full_name)`. -/
def User.display (u : User) : String := "@" ++ u.full_name

/-- Mirrors `enum MessageRecipients { Stream(String), Users(Vec<User>) }`
(main.rs lines 191-196). -/
inductive MessageRecipients where
  | Stream (stream : String)
  | Users (users : List User)
deriving DecidableEq, Repr

/-- Mirrors `impl fmt::Display for MessageRecipients`
(main.rs lines 198-216): `#stream` for streams; for users, the first user
or the `<no users>` placeholder, then `,user` for each remaining user. -/
def MessageRecipients.display : MessageRecipients → String
  | .Stream stream => "#" ++ stream
  | .Users [] => "<no users>"
  | .Users (first_user :: users) =>
      users.foldl (fun acc u => acc ++ "," ++ u.display) first_user.display

/-- Mirrors `struct Message` (main.rs lines 152-164).  The chrono
timestamp is modelled as seconds since epoch. -/
structure Message where
  content : String
  display_recipient : MessageRecipients
  sender_full_name : String
  timestamp : Int
  type_ : String
deriving DecidableEq, Repr

/-- Mirrors `Message::header` (main.rs lines 166-175); `lt` renders the
timestamp in the local timezone (chrono `with_timezone(&Local).time()`),
which depends on the environment and is abstracted. -/
def Message.header (lt : Int → String) (m : Message) : String :=
  "[" ++ lt m.timestamp ++ "] @" ++ m.sender_full_name ++ " -> "
    ++ m.display_recipient.display

/-- Mirrors `impl fmt::Display for Message` (main.rs lines 177-181):
`header: content`. -/
def Message.display (lt : Int → String) (m : Message) : String :=
  m.header lt ++ ": " ++ m.content

/-- Mirrors `enum EventType { Heartbeat, Message { flags, message },
#[serde(other)] Other }` (main.rs lines 137-150). -/
inductive EventType where
  | Heartbeat
  | Message (flags : List MessageFlag) (message : Message)
  | Other
deriving DecidableEq, Repr

/-- serde deserialization of `EventType` (internally tagged on `type`
with an `other` catch-all, main.rs lines 137-150): tag `heartbeat` gives
`Heartbeat`; tag `message` requires a `flags` array whose every element
decodes and a `message` object, else the decode fails; ANY other tag is
accepted as `Other` with remaining content ignored. -/
def EventType.deserialize (tag : String) (flags : Option (List String))
    (message : Option Zulip.Message) : Option EventType :=
  if tag = "heartbeat" then some .Heartbeat
  else if tag = "message" then
    match flags, message with
    | some fl, some m => (decodeFlags fl).map (fun fs => .Message fs m)
    | _, _ => none
  else some .Other

/-- Mirrors `struct Event { id, #[serde(flatten)] rest }`
(main.rs lines 130-135). -/
structure Event where
  id : Int
  rest : EventType
deriving DecidableEq, Repr

/-- The JSON content of one event before `EventType` decoding: the `id`,
the `type` tag, and (when present) the `flags` array of strings and the
nested `message` object. -/
structure RawEvent where
  id : Int
  type_tag : String
  flags : Option (List String)
  message : Option Message
deriving Repr

/-- serde deserialization of one `Event` from its raw content. -/
def Event.deserialize (r : RawEvent) : Option Event :=
  (EventType.deserialize r.type_tag r.flags r.message).map
    (fun ty => { id := r.id, rest := ty })

/-- Mirrors `struct PollEventQueue { events: Vec<Event> }`
(main.rs lines 125-128). -/
structure PollEventQueue where
  events : List Event
deriving DecidableEq, Repr

/-- serde deserialization of `PollEventQueue`: every raw event must
decode, otherwise the whole body fails to decode. -/
def PollEventQueue.deserialize (rs : List RawEvent) : Option PollEventQueue :=
  (rs.mapM Event.deserialize).map (fun evs => { events := evs })

/-- The URL path of the register call (main.rs lines 241-245). -/
def register_api : String :=
  "register?event_types=%5B%22message%22%5D&all_public_streams=false"

/-- Mirrors `EventQueue::register_new` (main.rs lines 237-257): issues the
register POST; a transport failure or a structured error propagates via
`?`/`into_result`, otherwise a fresh `EventQueue` is built from the
server-issued `queue_id` and `last_event_id`.  Returns the request issued
together with the result. -/
def register_new (site : ZulipSite) (regResp : HttpResp RegisterEventQueue) :
    Request × Except ZError EventQueue :=
  (.post (site.api_url register_api),
   match regResp with
   | .transportFail => .error .transport
   | .response r =>
       match r.into_result with
       | .error e => .error e
       | .ok resp =>
           .ok { site := site, queue_id := resp.queue_id,
                 last_event_id := resp.last_event_id })

/-- The URL path of the poll call (main.rs lines 267-270):
`events?queue_id=...&last_event_id=...&dont_block=false` built from the
queue's current fields. -/
def poll_api (q : EventQueue) : String :=
  "events?queue_id=" ++ q.queue_id ++ "&last_event_id="
    ++ toString q.last_event_id ++ "&dont_block=false"

/-- The GET request `long_poll` issues (main.rs lines 263-272). -/
def poll_request (q : EventQueue) : Request :=
  .get (q.site.api_url (poll_api q))

/-- What one `long_poll` call does, observably: the Rust function returns
`Ok(events)`, returns `Err`, or panics in the `expect` on line 290. -/
inductive PollOutcome where
  | ok (events : List Event)
  | failed (e : ZError)
  | panicked (msg : String)
deriving DecidableEq, Repr

/-- One `long_poll` step: the requests issued in order, the outcome, the
queue state after the call (`self` after mutation), and how many times
`register_new` was invoked. -/
structure PollStep where
  requests : List Request
  outcome : PollOutcome
  state : EventQueue
  registrations : Nat
deriving DecidableEq, Repr

/-- The `expect` message on main.rs line 290. -/
def expect_msg : String :=
  "either a real event or an heartbeat event should have been returned"

/-- Mirrors `EventQueue::long_poll` (main.rs lines 259-294).
`pollResp` is the HTTP outcome of the poll GET (with the success body
still raw, since decoding the events can fail); `regResp` is the HTTP
outcome of the register POST, consulted only if re-registration happens.
Control flow: transport/decode failures propagate via `?`; an error
result whose `code` field string-equals `BAD_EVENT_QUEUE_ID` triggers
`*self = register_new(...)?` and returns `Ok(vec![])`; any other error
result propagates via `into_result`; on success the cursor is set to
`events.last().expect(...).id`, panicking when the list is empty. -/
def long_poll (q : EventQueue) (pollResp : HttpResp (List RawEvent))
    (regResp : HttpResp RegisterEventQueue) : PollStep :=
  let req := poll_request q
  match pollResp with
  | .transportFail =>
      { requests := [req], outcome := .failed .transport, state := q,
        registrations := 0 }
  | .response (.Error err) =>
      if (err.get "code").bind JValue.as_str = some "BAD_EVENT_QUEUE_ID" then
        let rr := register_new q.site regResp
        match rr.2 with
        | .ok newq =>
            { requests := [req, rr.1], outcome := .ok [], state := newq,
              registrations := 1 }
        | .error e =>
            { requests := [req, rr.1], outcome := .failed e, state := q,
              registrations := 1 }
      else
        { requests := [req], outcome := .failed (.api err), state := q,
          registrations := 0 }
  | .response (.Success raw) =>
      match PollEventQueue.deserialize raw with
      | none =>
          { requests := [req], outcome := .failed .decode, state := q,
            registrations := 0 }
      | some poll_resp =>
          match poll_resp.events.getLast? with
          | none =>
              { requests := [req], outcome := .panicked expect_msg, state := q,
                registrations := 0 }
          | some last_ev =>
              { requests := [req], outcome := .ok poll_resp.events,
                state := { q with last_event_id := last_ev.id },
                registrations := 0 }

/-- The importance test in the dispatch loop (main.rs lines 76-77):
`flags.contains(&Mentioned) || flags.contains(&HasAlertWord)`. -/
def is_important (flags : List MessageFlag) : Bool :=
  flags.contains .Mentioned || flags.contains .HasAlertWord

/-- One call to an output sink in the dispatch loop: a `println!` line or
a `notify_rust` notification with summary and body. -/
inductive SinkCall where
  | logLine (line : String)
  | notify (summary : String) (body : String)
deriving DecidableEq, Repr

/-- Right-pad with spaces to the given width, as Rust `\x7b:<20\x7d`. -/
def pad_right (s : String) (w : Nat) : String :=
  s ++ String.mk (List.replicate (w - s.length) ' ')

/-- The console line for one message (main.rs lines 79-84):
importance marker, site name padded to width 20, message rendering. -/
def log_line (lt : Int → String) (site_name : String) (imp : Bool)
    (m : Message) : String :=
  (if imp then "!" else " ") ++ " " ++ pad_right site_name 20 ++ " "
    ++ m.display lt

/-- The notification for an important message (main.rs lines 86-91):
summary `site name ++ " " ++ header`, body `content`. -/
def notification (lt : Int → String) (site_name : String) (m : Message) :
    SinkCall :=
  .notify (site_name ++ " " ++ m.header lt) m.content

/-- Mirrors the per-batch dispatch loop of the SiteWatcher
(main.rs lines 72-95).  `show_ok k` tells whether the `k`-th
`Notification::show()` call of this batch succeeds; a failing `show()`
propagates via `?`, aborting the loop after the log line and the failing
notification call were already emitted.  Returns the sink calls made in
order and whether an error propagated out of the loop. -/
def dispatch_batch (lt : Int → String) (site_name : String)
    (show_ok : Nat → Bool) : List Event → Nat → List SinkCall × Bool
  | [], _ => ([], false)
  | ev :: rest, k =>
      match ev.rest with
      | .Heartbeat => dispatch_batch lt site_name show_ok rest k
      | .Message flags message =>
          let imp := is_important flags
          let line := SinkCall.logLine (log_line lt site_name imp message)
          if imp then
            if show_ok k then
              let tail := dispatch_batch lt site_name show_ok rest (k + 1)
              (line :: notification lt site_name message :: tail.1, tail.2)
            else
              ([line, notification lt site_name message], true)
          else
            let tail := dispatch_batch lt site_name show_ok rest k
            (line :: tail.1, tail.2)
      | .Other =>
          let tail := dispatch_batch lt site_name show_ok rest k
          (SinkCall.logLine "unknown event" :: tail.1, tail.2)

/-- The notification calls among a list of sink calls. -/
def notifyCalls (calls : List SinkCall) : List SinkCall :=
  calls.filter (fun c => match c with | .notify _ _ => true | _ => false)

/-- Specification-side description (spec section 4.3): a batch is expected
to produce exactly one notification per message event classified
important, in delivery order. -/
def spec_important_notifications (lt : Int → String) (site_name : String)
    (evs : List Event) : List SinkCall :=
  evs.filterMap (fun e =>
    match e.rest with
    | .Message flags m =>
        if is_important flags then some (notification lt site_name m) else none
    | _ => none)

/-! Concrete fixtures used by counterexamples and witnesses. -/

/-- A concrete site. -/
def demoSite : ZulipSite := { name := "demo", user := "user", token := "token" }

/-- A concrete queue with cursor 10. -/
def demoQueue : EventQueue :=
  { site := demoSite, queue_id := "Q1", last_event_id := 10 }

/-- A concrete message. -/
def demoMessage : Message :=
  { content := "hello", display_recipient := .Stream "general",
    sender_full_name := "Ada", timestamp := 0, type_ := "stream" }

/-- A raw heartbeat event with the given id. -/
def rawHeartbeat (i : Int) : RawEvent :=
  { id := i, type_tag := "heartbeat", flags := none, message := none }

/-- The structured error payload a poll receives when the queue expired. -/
def badQueuePayload : ErrPayload := [("code", .str "BAD_EVENT_QUEUE_ID")]

/-- A structured error payload with some other code. -/
def otherErrorPayload : ErrPayload := [("code", .str "RATE_LIMITED")]

/-- A raw message event carrying a flag string the code does not know. -/
def starredRawEvent : RawEvent :=
  { id := 7, type_tag := "message", flags := some ["starred"],
    message := some demoMessage }

/-- A raw event tagged `message` but missing its `flags` and `message`
fields, so the body fails to decode. -/
def malformedRawEvent : RawEvent :=
  { id := 9, type_tag := "message", flags := none, message := none }

/-! Helper lemmas. -/

/-- In a list whose ids are pairwise non-decreasing, every element's id is
at most the id of the last element. -/
theorem id_le_getLast_of_pairwise (l : List Event) (hne : l ≠ [])
    (hp : l.Pairwise (fun a b => a.id ≤ b.id)) :
    ∀ e ∈ l, e.id ≤ (l.getLast hne).id := by
  induction l with
  | nil => exact absurd rfl hne
  | cons x t ih =>
    intro e he
    cases t with
    | nil =>
      rcases List.mem_cons.mp he with rfl | h2
      · exact le_refl _
      · cases h2
    | cons y t2 =>
      have hne2 : y :: t2 ≠ [] := by simp
      rw [List.getLast_cons hne2]
      rcases List.mem_cons.mp he with rfl | h2
      · exact (List.pairwise_cons.mp hp).1 _ (List.getLast_mem hne2)
      · exact ih hne2 (List.pairwise_cons.mp hp).2 e h2

/-- Reduction of `long_poll` on a successful, decodable, non-empty batch. -/
theorem long_poll_success_nonempty (q : EventQueue)
    (reg : HttpResp RegisterEventQueue) (raw : List RawEvent)
    (pq : PollEventQueue)
    (hdec : PollEventQueue.deserialize raw = some pq)
    (hne : pq.events ≠ []) :
    long_poll q (.response (.Success raw)) reg =
      { requests := [poll_request q], outcome := .ok pq.events,
        state := { q with last_event_id := (pq.events.getLast hne).id },
        registrations := 0 } := by
  have hlast : pq.events.getLast? = some (pq.events.getLast hne) :=
    List.getLast?_eq_getLast _ hne
  simp [long_poll, hdec, hlast]

/-- C1: the spec requires that a successful poll whose event list is empty
returns an empty batch without advancing the cursor and without crashing;
the code instead reaches the `expect` on the empty `events` vector:
`long_poll` on the response with `result: success` and an empty event list
panics with the expect message rather than returning. -/
theorem C1_empty_success_batch_panics :
    long_poll demoQueue (.response (.Success [])) .transportFail =
      { requests := [poll_request demoQueue], outcome := .panicked expect_msg,
        state := demoQueue, registrations := 0 } := by
  rfl

/-- C2 counterexample: the code sets the cursor to the id of the LAST
array element, not to `max(existing cursor, max event id)`.  A successful
batch with ids `[5, 3]` against a queue whose cursor is 10 leaves the
cursor at 3, which is below both the prior cursor 10 and the received
event id 5, refuting the claim for non-ascending batches. -/
theorem C2_counterexample_cursor_can_decrease :
    (long_poll demoQueue
        (.response (.Success [rawHeartbeat 5, rawHeartbeat 3]))
        .transportFail).outcome =
      .ok [{ id := 5, rest := .Heartbeat }, { id := 3, rest := .Heartbeat }] ∧
    (long_poll demoQueue
        (.response (.Success [rawHeartbeat 5, rawHeartbeat 3]))
        .transportFail).state.last_event_id = 3 ∧
    demoQueue.last_event_id = 10 ∧
    ¬((10 : Int) ≤ 3) ∧ ¬((5 : Int) ≤ 3) := by
  decide

/-- C2 (amended): on a successful non-empty batch the code sets
`last_event_id` to the id of the last event; when the batch ids are
pairwise non-decreasing (ascending delivery order, as the server
guarantees) and every id is at least the prior cursor, the new
`last_event_id` is greater than or equal to every event id in the batch
and greater than or equal to the prior cursor, i.e. it equals
`max(existing cursor, max event id)` there. -/
theorem C2_cursor_monotone_on_ascending_batches (q : EventQueue)
    (reg : HttpResp RegisterEventQueue) (raw : List RawEvent)
    (pq : PollEventQueue)
    (hdec : PollEventQueue.deserialize raw = some pq)
    (hne : pq.events ≠ [])
    (hsorted : pq.events.Pairwise (fun a b => a.id ≤ b.id))
    (hge : ∀ e ∈ pq.events, q.last_event_id ≤ e.id) :
    (long_poll q (.response (.Success raw)) reg).outcome = .ok pq.events ∧
    q.last_event_id ≤
      (long_poll q (.response (.Success raw)) reg).state.last_event_id ∧
    ∀ e ∈ pq.events,
      e.id ≤ (long_poll q (.response (.Success raw)) reg).state.last_event_id := by
  rw [long_poll_success_nonempty q reg raw pq hdec hne]
  refine ⟨rfl, ?_, ?_⟩
  · exact hge _ (List.getLast_mem hne)
  · exact id_le_getLast_of_pairwise pq.events hne hsorted

/-- C2 witness: the amended statement applied to a concrete ascending
batch `[11, 12]` against the cursor-10 demo queue. -/
theorem C2_cursor_monotone_witness :
    (long_poll demoQueue
        (.response (.Success [rawHeartbeat 11, rawHeartbeat 12]))
        .transportFail).outcome =
      .ok [{ id := 11, rest := .Heartbeat }, { id := 12, rest := .Heartbeat }] ∧
    demoQueue.last_event_id ≤
      (long_poll demoQueue
        (.response (.Success [rawHeartbeat 11, rawHeartbeat 12]))
        .transportFail).state.last_event_id ∧
    ∀ e ∈ [Event.mk 11 .Heartbeat, Event.mk 12 .Heartbeat],
      e.id ≤ (long_poll demoQueue
        (.response (.Success [rawHeartbeat 11, rawHeartbeat 12]))
        .transportFail).state.last_event_id :=
  C2_cursor_monotone_on_ascending_batches demoQueue .transportFail
    [rawHeartbeat 11, rawHeartbeat 12]
    { events := [{ id := 11, rest := .Heartbeat }, { id := 12, rest := .Heartbeat }] }
    (by decide) (by decide) (by decide) (by decide)

/-- With every `show()` succeeding, the notification calls emitted by the
dispatch loop are exactly the expected one-per-important-message list. -/
theorem notifyCalls_dispatch_all_success (lt : Int → String) (sn : String)
    (evs : List Event) (k : Nat) :
    notifyCalls (dispatch_batch lt sn (fun _ => true) evs k).1 =
      spec_important_notifications lt sn evs := by
  induction evs generalizing k with
  | nil => rfl
  | cons e rest ih =>
    rcases e with ⟨i, ty⟩
    cases ty with
    | Heartbeat =>
        simpa [dispatch_batch, spec_important_notifications,
          List.filterMap_cons] using ih k
    | Message flags m =>
        rcases himp : is_important flags with _ | _
        · simpa [dispatch_batch, himp, notifyCalls, List.filter_cons,
            spec_important_notifications, List.filterMap_cons] using ih k
        · simpa [dispatch_batch, himp, notifyCalls, List.filter_cons,
            notification, spec_important_notifications,
            List.filterMap_cons] using ih (k + 1)
    | Other =>
        simpa [dispatch_batch, notifyCalls, List.filter_cons,
          spec_important_notifications, List.filterMap_cons] using ih k

/-- C3: `is_important` returns true exactly when the flag list contains
`Mentioned` or `HasAlertWord`; prepending `Read` never changes the
verdict; and (with every `show()` succeeding) the dispatch loop invokes
the notification sink exactly once per message classified important, in
order, and for nothing else. -/
theorem C3_importance_classification :
    (∀ S : List MessageFlag,
        is_important S = true ↔
          (MessageFlag.Mentioned ∈ S ∨ MessageFlag.HasAlertWord ∈ S)) ∧
    (∀ S : List MessageFlag, is_important (.Read :: S) = is_important S) ∧
    (∀ (lt : Int → String) (sn : String) (evs : List Event),
        notifyCalls (dispatch_batch lt sn (fun _ => true) evs 0).1 =
          spec_important_notifications lt sn evs) := by
  refine ⟨?_, ?_, ?_⟩
  · intro S
    simp [is_important, List.contains, List.elem_iff]
  · intro S
    simp [is_important, List.contains, List.elem_eq_mem]
  · intro lt sn evs
    exact notifyCalls_dispatch_all_success lt sn evs 0

/-- C4 counterexample: when the poll reports BAD_EVENT_QUEUE_ID but the
re-registration itself fails (here: a transport failure on the register
call), `long_poll` propagates that failure to the caller instead of
returning an empty batch, so the claim's unconditional "returns an empty
event batch ... and never propagates as a failure" is false. -/
theorem C4_counterexample_failed_reregistration :
    (long_poll demoQueue (.response (.Error badQueuePayload))
        .transportFail).outcome = .failed .transport ∧
    (long_poll demoQueue (.response (.Error badQueuePayload))
        .transportFail).outcome ≠ .ok [] := by
  decide

/-- C4 (amended): when the poll reports a structured error whose `code`
is BAD_EVENT_QUEUE_ID and the re-registration succeeds, `long_poll`
performs exactly one re-registration for the same site, replaces the
queue's `queue_id` and `last_event_id` with the fresh registration's
values, returns an empty batch without failing, and the next poll request
carries the newly issued `queue_id`; if the re-registration itself fails,
that failure propagates. -/
theorem C4_bad_queue_id_recovery (q : EventQueue) (err : ErrPayload)
    (r : RegisterEventQueue)
    (hcode : (err.get "code").bind JValue.as_str = some "BAD_EVENT_QUEUE_ID") :
    long_poll q (.response (.Error err)) (.response (.Success r)) =
      { requests := [poll_request q, .post (q.site.api_url register_api)],
        outcome := .ok [],
        state := { site := q.site, queue_id := r.queue_id,
                   last_event_id := r.last_event_id },
        registrations := 1 } ∧
    poll_request { site := q.site, queue_id := r.queue_id,
                   last_event_id := r.last_event_id } =
      .get (q.site.api_url ("events?queue_id=" ++ r.queue_id ++
        "&last_event_id=" ++ toString r.last_event_id ++ "&dont_block=false")) := by
  constructor
  · simp [long_poll, register_new, ApiResult.into_result, hcode]
  · rfl

/-- C4 witness: the amended recovery statement at the demo queue, the
BAD_EVENT_QUEUE_ID payload, and a fresh registration issuing queue `Q2`
with cursor 12. -/
theorem C4_bad_queue_id_recovery_witness :
    long_poll demoQueue (.response (.Error badQueuePayload))
        (.response (.Success { last_event_id := 12, queue_id := "Q2" })) =
      { requests := [poll_request demoQueue,
          .post (demoSite.api_url register_api)],
        outcome := .ok [],
        state := { site := demoSite, queue_id := "Q2", last_event_id := 12 },
        registrations := 1 } ∧
    poll_request { site := demoSite, queue_id := "Q2", last_event_id := 12 } =
      .get (demoSite.api_url ("events?queue_id=" ++ "Q2" ++
        "&last_event_id=" ++ toString (12 : Int) ++ "&dont_block=false")) :=
  C4_bad_queue_id_recovery demoQueue badQueuePayload
    { last_event_id := 12, queue_id := "Q2" } (by decide)

/-- C5: a transport failure, a structured API error with any code other
than BAD_EVENT_QUEUE_ID (including an absent code), and an undecodable
success body each make `long_poll` fail, propagating the corresponding
error with the queue unchanged; the recoverable BAD_EVENT_QUEUE_ID
condition with a successful re-registration is absorbed into an empty
successful batch and never surfaces as a failure. -/
theorem C5_fatal_errors_propagate (q : EventQueue) (err : ErrPayload)
    (reg : HttpResp RegisterEventQueue) (r : RegisterEventQueue)
    (raw : List RawEvent) :
    (long_poll q .transportFail reg =
      { requests := [poll_request q], outcome := .failed .transport,
        state := q, registrations := 0 }) ∧
    ((err.get "code").bind JValue.as_str ≠ some "BAD_EVENT_QUEUE_ID" →
      long_poll q (.response (.Error err)) reg =
        { requests := [poll_request q], outcome := .failed (.api err),
          state := q, registrations := 0 }) ∧
    (PollEventQueue.deserialize raw = none →
      long_poll q (.response (.Success raw)) reg =
        { requests := [poll_request q], outcome := .failed .decode,
          state := q, registrations := 0 }) ∧
    ((err.get "code").bind JValue.as_str = some "BAD_EVENT_QUEUE_ID" →
      (long_poll q (.response (.Error err))
          (.response (.Success r))).outcome = .ok []) := by
  refine ⟨rfl, ?_, ?_, ?_⟩
  · intro h
    simp [long_poll, h]
  · intro h
    simp [long_poll, h]
  · intro h
    simp [long_poll, register_new, ApiResult.into_result, h]

/-- C5 witness: the propagation statement at concrete inputs — a
RATE_LIMITED error payload, a register response issuing queue `Q2`, and a
malformed success body. -/
theorem C5_fatal_errors_propagate_witness :
    (long_poll demoQueue .transportFail .transportFail =
      { requests := [poll_request demoQueue], outcome := .failed .transport,
        state := demoQueue, registrations := 0 }) ∧
    (long_poll demoQueue (.response (.Error otherErrorPayload)) .transportFail =
      { requests := [poll_request demoQueue],
        outcome := .failed (.api otherErrorPayload),
        state := demoQueue, registrations := 0 }) ∧
    (long_poll demoQueue (.response (.Success [malformedRawEvent]))
        .transportFail =
      { requests := [poll_request demoQueue], outcome := .failed .decode,
        state := demoQueue, registrations := 0 }) ∧
    ((long_poll demoQueue (.response (.Error badQueuePayload))
        (.response (.Success { last_event_id := 12, queue_id := "Q2" }))).outcome =
      .ok []) := by
  refine ⟨?_, ?_, ?_, ?_⟩
  · exact (C5_fatal_errors_propagate demoQueue otherErrorPayload .transportFail
      { last_event_id := 12, queue_id := "Q2" } [malformedRawEvent]).1
  · exact (C5_fatal_errors_propagate demoQueue otherErrorPayload .transportFail
      { last_event_id := 12, queue_id := "Q2" } [malformedRawEvent]).2.1
      (by decide)
  · exact (C5_fatal_errors_propagate demoQueue otherErrorPayload .transportFail
      { last_event_id := 12, queue_id := "Q2" } [malformedRawEvent]).2.2.1
      (by decide)
  · exact (C5_fatal_errors_propagate demoQueue badQueuePayload .transportFail
      { last_event_id := 12, queue_id := "Q2" } [malformedRawEvent]).2.2.2
      (by decide)

/-- The accumulator-generalised correspondence between the rendering loop
of `MessageRecipients.display` and `String.intercalate`. -/
theorem users_foldl_eq_intercalate_go (us : List User) (a : String) :
    us.foldl (fun acc u => acc ++ "," ++ u.display) a =
      String.intercalate.go a "," (us.map User.display) := by
  induction us generalizing a with
  | nil => rfl
  | cons u t ih => exact ih (a ++ "," ++ u.display)

/-- C6: a stream recipient named `s` renders as `#` followed by `s`; a
user renders as `@` followed by the full name; a non-empty private
recipient list renders as the comma-joined list of `@`-prefixed full
names; an empty recipient list renders as the `<no users>` placeholder. -/
theorem C6_recipient_rendering :
    (∀ s, MessageRecipients.display (.Stream s) = "#" ++ s) ∧
    (∀ u : User, u.display = "@" ++ u.full_name) ∧
    (∀ (u : User) (us : List User),
        MessageRecipients.display (.Users (u :: us)) =
          String.intercalate "," ((u :: us).map User.display)) ∧
    MessageRecipients.display (.Users []) = "<no users>" := by
  refine ⟨fun s => rfl, fun u => rfl, ?_, rfl⟩
  intro u us
  exact users_foldl_eq_intercalate_go us u.display

/-- C7: the spec requires flag strings other than the recognized three to
be tolerated and ignored; the code's `MessageFlag` deserializer has no
catch-all, so the unknown flag string `starred` fails to decode, the
message event carrying it is rejected rather than accepted, and a
successful poll body containing it makes `long_poll` fail with a decode
error. -/
theorem C7_unknown_flag_rejected :
    MessageFlag.fromStr "starred" = none ∧
    decodeFlags ["starred"] = none ∧
    Event.deserialize starredRawEvent = none ∧
    (long_poll demoQueue (.response (.Success [starredRawEvent]))
        .transportFail).outcome = .failed .decode := by
  decide

/-- C8: an event whose `type` tag is neither `heartbeat` nor `message`
decodes to the `Other` variant — accepted, not rejected — and on dispatch
produces exactly the `unknown event` log line before the loop continues
with the rest of the batch; a heartbeat event produces no sink call at
all. -/
theorem C8_unknown_event_types_tolerated (tag : String)
    (flags : Option (List String)) (msg : Option Message) (lt : Int → String)
    (sn : String) (show_ok : Nat → Bool) (i : Int) (rest : List Event)
    (k : Nat) (h1 : tag ≠ "heartbeat") (h2 : tag ≠ "message") :
    EventType.deserialize tag flags msg = some .Other ∧
    dispatch_batch lt sn show_ok ({ id := i, rest := .Other } :: rest) k =
      (SinkCall.logLine "unknown event" ::
          (dispatch_batch lt sn show_ok rest k).1,
        (dispatch_batch lt sn show_ok rest k).2) ∧
    dispatch_batch lt sn show_ok ({ id := i, rest := .Heartbeat } :: rest) k =
      dispatch_batch lt sn show_ok rest k := by
  refine ⟨?_, rfl, rfl⟩
  simp [EventType.deserialize, h1, h2]

/-- C8 witness: the tolerance statement at the concrete unknown tag
`reaction` and a concrete one-heartbeat remainder batch. -/
theorem C8_unknown_event_types_witness :
    EventType.deserialize "reaction" none none = some .Other ∧
    dispatch_batch (fun _ => "t") "demo" (fun _ => true)
        ({ id := 3, rest := .Other } :: [{ id := 4, rest := .Heartbeat }]) 0 =
      (SinkCall.logLine "unknown event" ::
          (dispatch_batch (fun _ => "t") "demo" (fun _ => true)
            [{ id := 4, rest := .Heartbeat }] 0).1,
        (dispatch_batch (fun _ => "t") "demo" (fun _ => true)
          [{ id := 4, rest := .Heartbeat }] 0).2) ∧
    dispatch_batch (fun _ => "t") "demo" (fun _ => true)
        ({ id := 3, rest := .Heartbeat } :: [{ id := 4, rest := .Heartbeat }]) 0 =
      dispatch_batch (fun _ => "t") "demo" (fun _ => true)
        [{ id := 4, rest := .Heartbeat }] 0 :=
  C8_unknown_event_types_tolerated "reaction" none none (fun _ => "t") "demo"
    (fun _ => true) 3 [{ id := 4, rest := .Heartbeat }] 0
    (by decide) (by decide)

/-- C9: on a successful poll with a decodable non-empty event list, the
events are returned, only `last_event_id` changes — it becomes the last
event's id while `site` and `queue_id` stay what they were — no
re-registration happens, and the single request issued is the poll GET
carrying the `queue_id` and `last_event_id` held before the call. -/
theorem C9_frame_condition (q : EventQueue) (reg : HttpResp RegisterEventQueue)
    (raw : List RawEvent) (pq : PollEventQueue)
    (hdec : PollEventQueue.deserialize raw = some pq) (hne : pq.events ≠ []) :
    (long_poll q (.response (.Success raw)) reg).outcome = .ok pq.events ∧
    (long_poll q (.response (.Success raw)) reg).state.site = q.site ∧
    (long_poll q (.response (.Success raw)) reg).state.queue_id = q.queue_id ∧
    (long_poll q (.response (.Success raw)) reg).state.last_event_id =
      (pq.events.getLast hne).id ∧
    (long_poll q (.response (.Success raw)) reg).registrations = 0 ∧
    (long_poll q (.response (.Success raw)) reg).requests =
      [.get (q.site.api_url ("events?queue_id=" ++ q.queue_id ++
        "&last_event_id=" ++ toString q.last_event_id ++ "&dont_block=false"))] := by
  rw [long_poll_success_nonempty q reg raw pq hdec hne]
  exact ⟨rfl, rfl, rfl, rfl, rfl, rfl⟩

/-- C9 witness: the frame condition at the demo queue and the concrete
decodable batch with ids 11 and 12. -/
theorem C9_frame_condition_witness :
    (long_poll demoQueue
        (.response (.Success [rawHeartbeat 11, rawHeartbeat 12]))
        .transportFail).outcome =
      .ok [{ id := 11, rest := .Heartbeat }, { id := 12, rest := .Heartbeat }] ∧
    (long_poll demoQueue
        (.response (.Success [rawHeartbeat 11, rawHeartbeat 12]))
        .transportFail).state.site = demoQueue.site ∧
    (long_poll demoQueue
        (.response (.Success [rawHeartbeat 11, rawHeartbeat 12]))
        .transportFail).state.queue_id = demoQueue.queue_id ∧
    (long_poll demoQueue
        (.response (.Success [rawHeartbeat 11, rawHeartbeat 12]))
        .transportFail).state.last_event_id = 12 ∧
    (long_poll demoQueue
        (.response (.Success [rawHeartbeat 11, rawHeartbeat 12]))
        .transportFail).registrations = 0 ∧
    (long_poll demoQueue
        (.response (.Success [rawHeartbeat 11, rawHeartbeat 12]))
        .transportFail).requests =
      [.get (demoQueue.site.api_url ("events?queue_id=" ++ demoQueue.queue_id ++
        "&last_event_id=" ++ toString demoQueue.last_event_id ++
        "&dont_block=false"))] := by
  have h := C9_frame_condition demoQueue .transportFail
    [rawHeartbeat 11, rawHeartbeat 12]
    { events := [{ id := 11, rest := .Heartbeat },
                 { id := 12, rest := .Heartbeat }] }
    (by decide) (by decide)
  exact ⟨h.1, h.2.1, h.2.2.1, h.2.2.2.1.trans (by decide), h.2.2.2.2.1,
    h.2.2.2.2.2⟩

/-- C10: for a message classified important, when the notification
`show()` call fails, the dispatch loop emits the important-marked console
line, makes the failing notification call, and then the error propagates
out of the loop — the remaining events of the batch are not dispatched —
terminating that watcher. -/
theorem C10_notification_failure_is_fatal (lt : Int → String) (sn : String)
    (show_ok : Nat → Bool) (flags : List MessageFlag) (m : Message) (i : Int)
    (rest : List Event) (k : Nat)
    (himp : is_important flags = true) (hfail : show_ok k = false) :
    dispatch_batch lt sn show_ok
        ({ id := i, rest := .Message flags m } :: rest) k =
      ([.logLine (log_line lt sn true m), notification lt sn m], true) := by
  simp [dispatch_batch, himp, hfail]

/-- C10 witness: a mentioned message whose notification fails, followed by
a heartbeat that is consequently never dispatched. -/
theorem C10_notification_failure_witness :
    dispatch_batch (fun _ => "t") "demo" (fun _ => false)
        ({ id := 3, rest := .Message [.Mentioned] demoMessage } ::
          [{ id := 4, rest := .Heartbeat }]) 0 =
      ([.logLine (log_line (fun _ => "t") "demo" true demoMessage),
        notification (fun _ => "t") "demo" demoMessage], true) :=
  C10_notification_failure_is_fatal (fun _ => "t") "demo" (fun _ => false)
    [.Mentioned] demoMessage 3 [{ id := 4, rest := .Heartbeat }] 0
    (by decide) (by decide)

end Zulip
